import Mathlib

/-!
Shallow embedding of the `wildermoth/typings` repository: two standalone
scripts exercising the pydantic validation library
(`test_pydantic_lsp_features.py`, `test_lsp_comprehension.py`) and the
packaging descriptor `google-cloud-ndb-stubs/setup.py`.

Python values that can be either a string or an int (the raw input a
mode-before validator may receive) are modelled by `PyVal`; Python
floats are modelled by exact rationals; Python sets of strings by
`Finset String`; fallible model construction (pydantic validation) by
`Except String`.
-/

/-- A raw Python value as passed to a mode-before validator: in the
scripts only strings and ints occur. -/
inductive PyVal where
  | str (s : String)
  | int (n : Int)
deriving DecidableEq, Repr

deriving instance DecidableEq for Except

/-- Python `s.strip()`: the string with leading and trailing
whitespace removed. -/
def pyStrip (s : String) : String :=
  String.mk
    (((s.toList.dropWhile Char.isWhitespace).reverse.dropWhile
      Char.isWhitespace).reverse)

/-- Python `s.lower()`: every character lowercased. -/
def pyLower (s : String) : String := String.mk (s.toList.map Char.toLower)

/-- Python `int(s)` on a string: strip whitespace, optional sign, one
or more digits; raises (here: `none`) otherwise. -/
def pyInt? (s : String) : Option Int :=
  let t := (pyStrip s).toList
  let core : List Char → Option Nat := fun ds =>
    if ds ≠ [] ∧ ds.all Char.isDigit then
      some (ds.foldl (fun acc c => 10 * acc + (c.toNat - 48)) 0)
    else none
  match t with
  | '-' :: rest => (core rest).map (fun n => -(n : Int))
  | '+' :: rest => (core rest).map (fun n => (n : Int))
  | rest => (core rest).map (fun n => (n : Int))

/-- Python `sub in s` substring test: some window of `s` of the length
of `sub` equals `sub`. -/
def pyContainsSubstr (s sub : String) : Bool :=
  let cs := s.toList
  let t := sub.toList
  (List.range (cs.length + 1)).any fun i => (cs.drop i).take t.length = t

namespace Features

/-! Embedding of `test_pydantic_lsp_features.py`. -/

/-- `class ValidatedModel(BaseModel)`: fields `name: str`, `age: int`,
`email: str`, each with a field validator. -/
structure ValidatedModel where
  name : String
  age : Int
  email : String
deriving DecidableEq, Repr

/-- `validate_name`: rejects a name that is empty after stripping,
otherwise returns the stripped name. -/
def validate_name (v : String) : Except String String :=
  if (pyStrip v = "") then Except.error "name cannot be empty"
  else Except.ok (pyStrip v)

/-- `parse_age` (mode=before): receives the raw value; a string is
coerced with `int(...)`, anything else is returned as is. -/
def parse_age (v : PyVal) : Except String Int :=
  match v with
  | PyVal.str s =>
      match pyInt? s with
      | some n => Except.ok n
      | none => Except.error "invalid literal for int"
  | PyVal.int n => Except.ok n

/-- `validate_email`: rejects a value without `@`, otherwise lowercases it. -/
def validate_email (v : String) : Except String String :=
  if pyContainsSubstr v "@" then Except.ok (pyLower v)
  else Except.error "invalid email"

/-- Construction of `ValidatedModel`: pydantic runs the field
validators in field order; each validator result becomes the stored
field value. -/
def ValidatedModel.make (name : String) (age : PyVal) (email : String) :
    Except String ValidatedModel := do
  let n ← validate_name name
  let a ← parse_age age
  let e ← validate_email email
  Except.ok ⟨n, a, e⟩

/-- `class Rectangle(BaseModel)`: fields `width: int`, `length: int`. -/
structure Rectangle where
  width : Int
  length : Int
deriving DecidableEq, Repr

/-- Computed field `area`: `self.width * self.length`. -/
def Rectangle.area (r : Rectangle) : Int := r.width * r.length

/-- Computed field `perimeter`: `2 * (self.width + self.length)`. -/
def Rectangle.perimeter (r : Rectangle) : Int := 2 * (r.width + r.length)

/-- `class Square(BaseModel)`: fields `width: float`, `height: float`. -/
structure Square where
  width : ℚ
  height : ℚ
deriving DecidableEq, Repr

/-- `verify_square` (model_validator mode=after): raises unless
`width == height`, otherwise returns the instance. -/
def Square.verify_square (s : Square) : Except String Square :=
  if s.width ≠ s.height then
    Except.error "width and height must match for a square"
  else Except.ok s

/-- Construction of `Square`: field validation (floats are stored as
given) followed by the mode-after model validator. -/
def Square.make (width height : ℚ) : Except String Square :=
  Square.verify_square ⟨width, height⟩

/-- `class UserWithFields(BaseModel)`: `name: str = Field(min_length=1)`,
`age: int = Field(ge=0, le=150)`, `email: str = Field(pattern=...)`. -/
structure UserWithFields where
  name : String
  age : Int
  email : String
deriving DecidableEq, Repr

/-- `\w` of the email regex (ASCII): letter, digit or underscore. -/
def isWordChar (c : Char) : Bool := c.isAlphanum || c = '_'

/-- `[\w\.-]` of the email regex: word char, dot or dash. -/
def isWordDotDash (c : Char) : Bool := isWordChar c || c = '.' || c = '-'

/-- Matcher for the regex `^[\w\.-]+@[\w\.-]+\.\w+$`: the string
decomposes as a nonempty `[\w.-]+` block, an `@` at position `i`, a
nonempty `[\w.-]+` block, a `.` at position `j`, and a nonempty `\w+`
tail. -/
def emailPatternMatches (s : String) : Bool :=
  let cs := s.toList
  let n := cs.length
  (List.range n).any fun i =>
    (List.range n).any fun j =>
      decide (1 ≤ i) && decide (i + 2 ≤ j) && decide (j + 2 ≤ n) &&
      (cs.getD i ' ' = '@') && (cs.getD j ' ' = '.') &&
      (cs.take i).all isWordDotDash &&
      ((cs.drop (i + 1)).take (j - i - 1)).all isWordDotDash &&
      (cs.drop (j + 1)).all isWordChar

/-- Construction of `UserWithFields`: the `Field` constraints
(min_length on `name`, ge/le bounds on `age`, regex pattern on `email`)
are checked; the values themselves are stored unchanged. -/
def UserWithFields.make (name : String) (age : Int) (email : String) :
    Except String UserWithFields :=
  if name.length < 1 then
    Except.error "String should have at least 1 character"
  else if ¬ (0 ≤ age ∧ age ≤ 150) then
    Except.error "Input should be in the allowed range"
  else if ¬ emailPatternMatches email then
    Except.error "String should match pattern"
  else Except.ok ⟨name, age, email⟩

end Features

namespace Comprehension

/-! Embedding of `test_lsp_comprehension.py`. -/

/-- `class User(BaseModel)`: `name: str`,
`age: int = Field(ge=0, le=150)`, `email: str | None = None`. -/
structure User where
  name : String
  age : Int
  email : Option String
deriving DecidableEq, Repr

/-- Construction of `User`: the ge/le bounds on `age` are checked; the
values are stored unchanged. -/
def User.make (name : String) (age : Int) (email : Option String) :
    Except String User :=
  if 0 ≤ age ∧ age ≤ 150 then Except.ok ⟨name, age, email⟩
  else Except.error "Input should be in the allowed range"

/-- `class Stats(BaseModel)`: fields `wins: int`, `losses: int`. -/
structure Stats where
  wins : Int
  losses : Int
deriving DecidableEq, Repr

/-- Computed field `total_games`: `self.wins + self.losses`. -/
def Stats.total_games (s : Stats) : Int := s.wins + s.losses

/-- Computed field `win_rate`: `0.0` when `total_games == 0`, else
`self.wins / self.total_games` (Python float division, modelled
exactly on ℚ). -/
def Stats.win_rate (s : Stats) : ℚ :=
  if s.total_games = 0 then 0
  else (s.wins : ℚ) / (s.total_games : ℚ)

end Comprehension

/-- Python `round(x, 2)` (round half to even at two decimals),
modelled exactly on ℚ. -/
def roundHalfToEven (x : ℚ) : Int :=
  let f : Int := ⌊x⌋
  let frac : ℚ := x - (f : ℚ)
  if frac < 1 / 2 then f
  else if 1 / 2 < frac then f + 1
  else if f % 2 = 0 then f else f + 1

/-- `round(score, 2)` as used by `serialize_score`. -/
def pyRound2 (x : ℚ) : ℚ := (roundHalfToEven (x * 100) : ℚ) / 100

namespace Features

/-- `class SerializedModel(BaseModel)`: fields `courses: set[str]`,
`score: float`. -/
structure SerializedModel where
  courses : Finset String
  score : ℚ
deriving DecidableEq

/-- `serialize_courses` (field_serializer, when_used=json):
`sorted(courses)`. -/
def SerializedModel.serialize_courses (_ : SerializedModel)
    (courses : Finset String) : List String :=
  courses.sort (· ≤ ·)

/-- `serialize_score` (field_serializer, always): `round(score, 2)`. -/
def SerializedModel.serialize_score (_ : SerializedModel) (score : ℚ) : ℚ :=
  pyRound2 score

/-- Output of `model_dump()` (python mode): `courses` keeps its set
value because its serializer only runs for JSON; `score` goes through
`serialize_score`. -/
structure SerializedDumpOut where
  courses : Finset String
  score : ℚ
deriving DecidableEq

/-- Output of `model_dump_json()` (json mode): both serializers run,
`courses` becomes a sorted list. -/
structure SerializedJsonOut where
  courses : List String
  score : ℚ
deriving DecidableEq

/-- `model_dump()` on a `SerializedModel`. -/
def SerializedModel.model_dump (m : SerializedModel) : SerializedDumpOut :=
  ⟨m.courses, m.serialize_score m.score⟩

/-- `model_dump_json()` on a `SerializedModel` (the JSON object it
encodes). -/
def SerializedModel.model_dump_json (m : SerializedModel) : SerializedJsonOut :=
  ⟨m.serialize_courses m.courses, m.serialize_score m.score⟩

end Features

/-! Script structure: the test functions each script defines (in
definition order) and the statements its `__main__` block executes. -/

/-- One statement executed by a `__main__` block: a call to a
module-level test function, or a `print(...)` of one argument. -/
inductive Event where
  | call (fn : String)
  | println (line : String)
deriving DecidableEq, Repr

/-- The function name of a call event. -/
def Event.callName : Event → Option String
  | Event.call fn => some fn
  | Event.println _ => none

/-- The printed line of a print event. -/
def Event.printedLine : Event → Option String
  | Event.call _ => none
  | Event.println l => some l

/-- A script: its file name, its test functions in definition order,
and its `__main__` block as the list of statements it executes. -/
structure Script where
  name : String
  tests : List String
  mainEvents : List Event
deriving DecidableEq, Repr

/-- The test functions the `__main__` block of a script calls, in call order. -/
def Script.callsMade (s : Script) : List String :=
  s.mainEvents.filterMap Event.callName

/-- The lines the `__main__` block of a script prints, in order. -/
def Script.linesPrinted (s : Script) : List String :=
  s.mainEvents.filterMap Event.printedLine

/-- `"=" * 50`. -/
def eqLine : String := String.mk (List.replicate 50 '=')

/-- The ASCII apostrophe character, as a one-character string. -/
def apos : String := String.mk [Char.ofNat 39]

/-- `test_pydantic_lsp_features.py`: its eight test functions and its
`__main__` block (header print, the eight calls in definition order,
closing prints). -/
def featuresScript : Script :=
  ⟨"test_pydantic_lsp_features.py",
   ["test_field_descriptor", "test_computed_field", "test_generic_model",
    "test_field_validator", "test_model_validator", "test_field_serializer",
    "test_nested_models", "test_complex_validation"],
   [Event.println ("Testing Pydantic LSP-Friendly Type Stubs\n" ++ eqLine),
    Event.call "test_field_descriptor",
    Event.call "test_computed_field",
    Event.call "test_generic_model",
    Event.call "test_field_validator",
    Event.call "test_model_validator",
    Event.call "test_field_serializer",
    Event.call "test_nested_models",
    Event.call "test_complex_validation",
    Event.println ("\n" ++ eqLine),
    Event.println "✅ All LSP feature tests passed!",
    Event.println "\nYour LSP should now provide:",
    Event.println "  • Accurate type inference for fields on instances",
    Event.println "  • Property types for computed_field decorators",
    Event.println "  • Generic model parameter inference",
    Event.println "  • Preserved signatures for validators and serializers",
    Event.println "  • Nested model navigation",
    Event.println "  • Full validation pipeline type tracking"]⟩

/-- `test_lsp_comprehension.py`: its nine test functions and its
`__main__` block, which only prints four lines and calls no test
function. -/
def comprehensionScript : Script :=
  ⟨"test_lsp_comprehension.py",
   ["test_basic_fields", "test_computed_fields", "test_nested_models",
    "test_generic_models", "test_inheritance", "test_validators",
    "test_serializers", "test_complex_nested", "test_model_methods"],
   [Event.println "Running LSP comprehension tests...",
    Event.println "\n✓ All type hints should be correctly understood by LSP!",
    Event.println "✓ Run with: mypy --strict test_lsp_comprehension.py",
    Event.println ("✓ Or use your IDE" ++ apos ++
      "s type checker to verify autocomplete works correctly")]⟩

/-- The two executable scripts of the repository. -/
def repoScripts : List Script := [featuresScript, comprehensionScript]

/-! Error handling in the repository: the try/except blocks appearing
anywhere in its code, and the model construction each one guards. -/

/-- A try/except block of the repository: where it is, the exception
class named by its except clause, the substring its handler asserts
to occur in the error message, and the guarded construction. -/
structure TryExceptBlock where
  script : String
  function : String
  exceptionClass : String
  assertedSubstr : String
  guarded : Except String Unit

/-- All try/except blocks in the repository: exactly one, in
`test_model_validator` of `test_pydantic_lsp_features.py`, catching
`ValueError` around `Square(width=5.0, height=6.0)` and asserting
that `"must match"` occurs in the error message. -/
def tryExceptBlocks : List TryExceptBlock :=
  [⟨"test_pydantic_lsp_features.py", "test_model_validator", "ValueError",
    "must match", (Features.Square.make 5 6).map fun _ => ()⟩]

/-! Class definitions and where they are instantiated: one entry per
model class, per script, with the list of test functions containing a
direct constructor call of that class (each function listed once). -/

/-- A model class of a script, with the test functions that
instantiate it. -/
structure ClassUsage where
  script : String
  className : String
  instantiatedIn : List String
deriving DecidableEq, Repr

/-- The class definitions of both scripts with their instantiation
sites, read off the source. -/
def classUsages : List ClassUsage :=
  [⟨"test_pydantic_lsp_features.py", "UserWithFields", ["test_field_descriptor"]⟩,
   ⟨"test_pydantic_lsp_features.py", "Rectangle", ["test_computed_field"]⟩,
   ⟨"test_pydantic_lsp_features.py", "GenericContainer", ["test_generic_model"]⟩,
   ⟨"test_pydantic_lsp_features.py", "ValidatedModel", ["test_field_validator"]⟩,
   ⟨"test_pydantic_lsp_features.py", "Square", ["test_model_validator"]⟩,
   ⟨"test_pydantic_lsp_features.py", "FlexibleInput", ["test_model_validator"]⟩,
   ⟨"test_pydantic_lsp_features.py", "SerializedModel", ["test_field_serializer"]⟩,
   ⟨"test_pydantic_lsp_features.py", "Address", ["test_nested_models"]⟩,
   ⟨"test_pydantic_lsp_features.py", "Person", ["test_nested_models"]⟩,
   ⟨"test_pydantic_lsp_features.py", "ComplexModel", ["test_complex_validation"]⟩,
   ⟨"test_lsp_comprehension.py", "User", ["test_basic_fields", "test_model_methods"]⟩,
   ⟨"test_lsp_comprehension.py", "Rectangle", ["test_computed_fields"]⟩,
   ⟨"test_lsp_comprehension.py", "Address", ["test_nested_models"]⟩,
   ⟨"test_lsp_comprehension.py", "Company", ["test_nested_models"]⟩,
   ⟨"test_lsp_comprehension.py", "Employee", ["test_nested_models"]⟩,
   ⟨"test_lsp_comprehension.py", "Container", ["test_generic_models"]⟩,
   ⟨"test_lsp_comprehension.py", "GenericPair", ["test_generic_models"]⟩,
   ⟨"test_lsp_comprehension.py", "Person", []⟩,
   ⟨"test_lsp_comprehension.py", "Student", ["test_inheritance"]⟩,
   ⟨"test_lsp_comprehension.py", "Product", ["test_validators"]⟩,
   ⟨"test_lsp_comprehension.py", "Timestamp", ["test_serializers"]⟩,
   ⟨"test_lsp_comprehension.py", "Stats", ["test_complex_nested"]⟩,
   ⟨"test_lsp_comprehension.py", "Team", ["test_complex_nested"]⟩]

/-- The classes a given script defines, in definition order. -/
def classesOf (script : String) : List String :=
  (classUsages.filter fun u => u.script = script).map ClassUsage.className

/-! The packaging descriptor `google-cloud-ndb-stubs/setup.py`. -/

/-- A value passed to `setup(...)`: a string, a boolean, the result of
reading a file, the result of `find_packages()`, a list of strings, or
a package-data mapping. -/
inductive SetupVal where
  | str (s : String)
  | bool (b : Bool)
  | readFile (path : String)
  | findPackages
  | strList (l : List String)
  | packageData (m : List (String × List String))
deriving DecidableEq, Repr

/-- The keyword arguments of the `setup(...)` call, in source order. -/
def setupKwargs : List (String × SetupVal) :=
  [("name", SetupVal.str "google-cloud-ndb-stubs"),
   ("version", SetupVal.str "2.3.4"),
   ("description", SetupVal.str "Type stubs for google-cloud-ndb"),
   ("long_description", SetupVal.readFile "../README.md"),
   ("long_description_content_type", SetupVal.str "text/markdown"),
   ("author", SetupVal.str "Type Stubs Contributor"),
   ("packages", SetupVal.findPackages),
   ("package_data", SetupVal.packageData
     [("google-cloud-ndb-stubs", ["py.typed", "**/*.pyi"]),
      ("google.cloud.ndb", ["py.typed", "*.pyi"])]),
   ("include_package_data", SetupVal.bool true),
   ("zip_safe", SetupVal.bool false),
   ("python_requires", SetupVal.str ">=3.7"),
   ("classifiers", SetupVal.strList
     ["Development Status :: 4 - Beta",
      "Intended Audience :: Developers",
      "License :: OSI Approved :: Apache Software License",
      "Programming Language :: Python :: 3",
      "Programming Language :: Python :: 3.7",
      "Programming Language :: Python :: 3.8",
      "Programming Language :: Python :: 3.9",
      "Programming Language :: Python :: 3.10",
      "Programming Language :: Python :: 3.11",
      "Typing :: Typed"])]

/-- The metadata fields the claim lists for the packaging descriptor,
in the claim wording order (from the spec, for comparison with
`setupKwargs`). -/
def claimListedKeys : List String :=
  ["name", "version", "description", "long_description", "author",
   "packages", "package_data", "zip_safe", "python_requires",
   "classifiers"]

/-! Theorems settling the claims. -/

/-- C1 (counterexample): the claim "every script, run directly, runs
its test functions in a fixed order" fails at `test_lsp_comprehension.py`:
its `__main__` block defines nine test functions, calls none of them,
and only prints; so not every script in `repoScripts` calls its tests. -/
theorem spec_C1_cex :
    comprehensionScript ∈ repoScripts ∧
    comprehensionScript.tests.length = 9 ∧
    comprehensionScript.callsMade = [] ∧
    ¬ (∀ s ∈ repoScripts, s.callsMade = s.tests) := by
  refine ⟨by decide, by decide, by decide, ?_⟩
  intro hall
  have h := hall comprehensionScript (by decide)
  exact absurd h (by decide)

/-- C1 (amended): `test_pydantic_lsp_features.py`, run directly, calls
its eight test functions exactly in definition order and prints status
lines; `test_lsp_comprehension.py`, run directly, calls no test
function and only prints status lines. -/
theorem spec_C1 :
    featuresScript.callsMade = featuresScript.tests ∧
    featuresScript.linesPrinted ≠ [] ∧
    comprehensionScript.callsMade = [] ∧
    comprehensionScript.linesPrinted ≠ [] ∧
    repoScripts = [featuresScript, comprehensionScript] := by
  refine ⟨by decide, by decide, by decide, by decide, by decide⟩

/-- C2: on the `SerializedModel` built from the course set
Math/English/Chemistry with score 95.678,
`model_dump` reports the score rounded to 95.68 and
the courses still as the set, `model_dump_json` reports the courses as
the sorted list and the rounded score, while the stored attributes
keep their untransformed values (for every constructed instance). -/
theorem spec_C2 :
    (∀ (c : Finset String) (s : ℚ),
      (Features.SerializedModel.mk c s).courses = c ∧
      (Features.SerializedModel.mk c s).score = s) ∧
    (Features.SerializedModel.mk {"Math", "English", "Chemistry"}
      (95678 / 1000)).model_dump.score = 9568 / 100 ∧
    (Features.SerializedModel.mk {"Math", "English", "Chemistry"}
      (95678 / 1000)).model_dump.courses = {"Math", "English", "Chemistry"} ∧
    (Features.SerializedModel.mk {"Math", "English", "Chemistry"}
      (95678 / 1000)).model_dump_json.courses
        = ["Chemistry", "English", "Math"] ∧
    (Features.SerializedModel.mk {"Math", "English", "Chemistry"}
      (95678 / 1000)).model_dump_json.score = 9568 / 100 := by
  refine ⟨fun c s => ⟨rfl, rfl⟩, ?_, rfl, ?_, ?_⟩
  · show pyRound2 (95678 / 1000) = 9568 / 100
    norm_num [pyRound2, roundHalfToEven]
  · show ({"Math", "English", "Chemistry"} : Finset String).sort (· ≤ ·)
      = ["Chemistry", "English", "Math"]
    apply List.eq_of_perm_of_sorted (Multiset.coe_eq_coe.mp ?_)
      (Finset.sort_sorted _ _) ?_
    · rw [Finset.sort_eq]
      decide
    · have hp : List.Pairwise (fun a b : String => a.toList ≤ b.toList)
        ["Chemistry", "English", "Math"] := by decide
      exact hp.imp fun hab => String.le_iff_toList_le.mpr hab
  · show pyRound2 (95678 / 1000) = 9568 / 100
    norm_num [pyRound2, roundHalfToEven]

/-- C3: whenever `ValidatedModel` construction succeeds, the stored
`age` is exactly the value the mode-before validator `parse_age`
returned on the raw input. -/
theorem spec_C3 (name : String) (age : PyVal) (email : String)
    (m : Features.ValidatedModel)
    (h : Features.ValidatedModel.make name age email = Except.ok m) :
    Features.parse_age age = Except.ok m.age := by
  unfold Features.ValidatedModel.make at h
  cases hn : Features.validate_name name with
  | error e => rw [hn] at h; exact absurd h (by simp [Bind.bind, Except.bind])
  | ok n =>
    rw [hn] at h
    cases ha : Features.parse_age age with
    | error e => rw [ha] at h; exact absurd h (by simp [Bind.bind, Except.bind])
    | ok a =>
      rw [ha] at h
      cases he : Features.validate_email email with
      | error e => rw [he] at h; exact absurd h (by simp [Bind.bind, Except.bind])
      | ok e =>
        rw [he] at h
        simp only [Bind.bind, Except.bind, pure, Except.pure, Except.ok.injEq] at h
        subst h
        rfl

/-- C3 (witness): `ValidatedModel(name="  Alice  ", age="30",
email="ALICE@EXAMPLE.COM")` succeeds, and the stored age is the int 30
that `parse_age` returned on the raw string "30". -/
theorem spec_C3_witness :
    Features.ValidatedModel.make "  Alice  " (PyVal.str "30") "ALICE@EXAMPLE.COM"
      = Except.ok ⟨"Alice", 30, "alice@example.com"⟩ ∧
    Features.parse_age (PyVal.str "30") = Except.ok (30 : Int) :=
  ⟨by decide,
   spec_C3 "  Alice  " (PyVal.str "30") "ALICE@EXAMPLE.COM"
     ⟨"Alice", 30, "alice@example.com"⟩ (by decide)⟩

/-- C4: computed properties equal their defining expressions on the
current fields: `Rectangle.area = width * length` and
`perimeter = 2 * (width + length)` for every instance, with
`Rectangle(width=3, length=4)` giving 12 and 14, and
`Stats.win_rate = wins / total_games` whenever `total_games` is
nonzero. -/
theorem spec_C4 :
    (∀ w l : Int, (Features.Rectangle.mk w l).area = w * l ∧
      (Features.Rectangle.mk w l).perimeter = 2 * (w + l)) ∧
    (Features.Rectangle.mk 3 4).area = 12 ∧
    (Features.Rectangle.mk 3 4).perimeter = 14 ∧
    (∀ s : Comprehension.Stats, s.total_games ≠ 0 →
      s.win_rate = (s.wins : ℚ) / (s.total_games : ℚ)) := by
  refine ⟨fun w l => ⟨rfl, rfl⟩, by decide, by decide, fun s hs => ?_⟩
  unfold Comprehension.Stats.win_rate
  rw [if_neg hs]

/-- C4 (witness): `Stats(wins=15, losses=5)` has 20 games, so its
`win_rate` equals `15 / 20 = 3 / 4`. -/
theorem spec_C4_witness :
    (Comprehension.Stats.mk 15 5).total_games ≠ 0 ∧
    (Comprehension.Stats.mk 15 5).win_rate = 3 / 4 := by
  have h := spec_C4.2.2.2 (Comprehension.Stats.mk 15 5) (by decide)
  norm_num [Comprehension.Stats.total_games] at h
  exact ⟨by decide, h⟩

/-- C5: when construction of `UserWithFields` or `User` succeeds, each
field reads back exactly the value given at construction. -/
theorem spec_C5 :
    (∀ n a e u, Features.UserWithFields.make n a e = Except.ok u →
      u.name = n ∧ u.age = a ∧ u.email = e) ∧
    (∀ n a e u, Comprehension.User.make n a e = Except.ok u →
      u.name = n ∧ u.age = a ∧ u.email = e) := by
  constructor
  · intro n a e u h
    unfold Features.UserWithFields.make at h
    split at h
    · exact absurd h (by simp)
    split at h
    · exact absurd h (by simp)
    split at h
    · exact absurd h (by simp)
    · cases h
      exact ⟨rfl, rfl, rfl⟩
  · intro n a e u h
    unfold Comprehension.User.make at h
    split at h
    · cases h
      exact ⟨rfl, rfl, rfl⟩
    · exact absurd h (by simp)

/-- C5 (witness): both constructions succeed on the Alice inputs of the
scripts and round-trip the given values. -/
theorem spec_C5_witness :
    ((Features.UserWithFields.mk "Alice" 30 "alice@example.com").name = "Alice" ∧
      (Features.UserWithFields.mk "Alice" 30 "alice@example.com").age = 30 ∧
      (Features.UserWithFields.mk "Alice" 30 "alice@example.com").email
        = "alice@example.com") ∧
    ((Comprehension.User.mk "Alice" 30 (some "alice@example.com")).name = "Alice" ∧
      (Comprehension.User.mk "Alice" 30 (some "alice@example.com")).age = 30 ∧
      (Comprehension.User.mk "Alice" 30 (some "alice@example.com")).email
        = some "alice@example.com") :=
  ⟨spec_C5.1 "Alice" 30 "alice@example.com"
     ⟨"Alice", 30, "alice@example.com"⟩ (by decide),
   spec_C5.2 "Alice" 30 (some "alice@example.com")
     ⟨"Alice", 30, some "alice@example.com"⟩ (by decide)⟩

/-- C6: any `Square` construction with unequal sides yields the
validation error whose message contains "must match"; the repository
contains exactly one try/except block, in `test_model_validator` of
`test_pydantic_lsp_features.py`, and the construction it guards indeed
errors with a message containing the asserted substring. -/
theorem spec_C6 :
    (∀ w h : ℚ, w ≠ h → ∃ e, Features.Square.make w h = Except.error e ∧
      pyContainsSubstr e "must match" = true) ∧
    (∀ b ∈ tryExceptBlocks,
      b.script = "test_pydantic_lsp_features.py" ∧
      b.function = "test_model_validator" ∧
      ∃ e, b.guarded = Except.error e ∧
        pyContainsSubstr e b.assertedSubstr = true) ∧
    tryExceptBlocks.length = 1 := by
  refine ⟨fun w h hne => ?_, fun b hb => ?_, rfl⟩
  · refine ⟨"width and height must match for a square", ?_, by decide⟩
    unfold Features.Square.make Features.Square.verify_square
    simp [hne]
  · rcases List.mem_singleton.mp hb with rfl
    exact ⟨rfl, rfl,
      ⟨"width and height must match for a square", by decide, by decide⟩⟩

/-- C6 (witness): at `Square(width=5.0, height=6.0)` the construction
errors and the message contains "must match". -/
theorem spec_C6_witness :
    ∃ e, Features.Square.make 5 6 = Except.error e ∧
      pyContainsSubstr e "must match" = true :=
  spec_C6.1 5 6 (by norm_num)

/-- C9: every successfully constructed `Square` satisfies
`width = height`, and any construction with unequal sides errors. -/
theorem spec_C9 (w h : ℚ) :
    (∀ s, Features.Square.make w h = Except.ok s → s.width = s.height) ∧
    (w ≠ h →
      Features.Square.make w h
        = Except.error "width and height must match for a square") := by
  unfold Features.Square.make Features.Square.verify_square
  constructor
  · intro s hs
    by_cases hne : w ≠ h
    · rw [if_pos hne] at hs
      exact absurd hs (by simp)
    · rw [if_neg hne] at hs
      cases hs
      simpa using hne
  · intro hne
    rw [if_pos hne]

/-- C9 (witness): `Square(width=5.0, height=6.0)` errors, and the
instance produced by `Square(width=5.0, height=5.0)` has equal sides. -/
theorem spec_C9_witness :
    Features.Square.make 5 6
      = Except.error "width and height must match for a square" ∧
    (Features.Square.mk 5 5).width = (Features.Square.mk 5 5).height :=
  ⟨(spec_C9 5 6).2 (by norm_num),
   (spec_C9 5 5).1 (Features.Square.mk 5 5) (by decide)⟩

/-- C10: `win_rate` never divides by zero: it returns 0 whenever
`total_games` is 0 and `wins / total_games` otherwise, for all integer
`wins` and `losses`. -/
theorem spec_C10 (wins losses : Int) :
    ((Comprehension.Stats.mk wins losses).total_games = 0 →
      (Comprehension.Stats.mk wins losses).win_rate = 0) ∧
    ((Comprehension.Stats.mk wins losses).total_games ≠ 0 →
      (Comprehension.Stats.mk wins losses).win_rate
        = (wins : ℚ) / (((Comprehension.Stats.mk wins losses).total_games : Int) : ℚ)) := by
  constructor
  · intro h0
    unfold Comprehension.Stats.win_rate
    rw [if_pos h0]
  · intro hne
    unfold Comprehension.Stats.win_rate
    rw [if_neg hne]

/-- C10 (witness): `Stats(wins=0, losses=0)` has `win_rate = 0` with no
division; `Stats(wins=15, losses=5)` has `win_rate = 15 / 20`. -/
theorem spec_C10_witness :
    (Comprehension.Stats.mk 0 0).win_rate = 0 ∧
    (Comprehension.Stats.mk 15 5).win_rate
      = ((15 : Int) : ℚ) / (((Comprehension.Stats.mk 15 5).total_games : Int) : ℚ) :=
  ⟨(spec_C10 0 0).1 (by decide), (spec_C10 15 5).2 (by decide)⟩

/-- C7 (counterexample): the claim "each class is instantiated within
a single test function only" fails at class `User` of
`test_lsp_comprehension.py`, which is instantiated in both
`test_basic_fields` and `test_model_methods`. -/
theorem spec_C7_cex :
    ClassUsage.mk "test_lsp_comprehension.py" "User"
      ["test_basic_fields", "test_model_methods"] ∈ classUsages ∧
    ¬ (∀ u ∈ classUsages, u.instantiatedIn.length ≤ 1) := by
  refine ⟨by decide, ?_⟩
  intro hall
  have h := hall (ClassUsage.mk "test_lsp_comprehension.py" "User"
    ["test_basic_fields", "test_model_methods"]) (by decide)
  exact absurd h (by decide)

/-- C7 (amended): every model class is defined once in its script, and
every class except `User` of `test_lsp_comprehension.py` is
instantiated in at most one test function; `User` is instantiated in
exactly the two test functions `test_basic_fields` and
`test_model_methods`. -/
theorem spec_C7 :
    (classesOf "test_pydantic_lsp_features.py").Nodup ∧
    (classesOf "test_lsp_comprehension.py").Nodup ∧
    ∀ u ∈ classUsages, u.instantiatedIn.length ≤ 1 ∨
      (u.script = "test_lsp_comprehension.py" ∧ u.className = "User" ∧
        u.instantiatedIn = ["test_basic_fields", "test_model_methods"]) := by
  refine ⟨by decide, by decide, by decide⟩

/-- C8 (counterexample): the claim that the descriptor declares
exactly the listed metadata fails: `setup(...)` also passes
`long_description_content_type`, which is not among the listed
fields. -/
theorem spec_C8_cex :
    "long_description_content_type" ∈ setupKwargs.map Prod.fst ∧
    "long_description_content_type" ∉ claimListedKeys := by
  refine ⟨by decide, by decide⟩

/-- C8 (amended): the descriptor declares every listed metadata field
with the stated value (name, version, description, README-sourced long
description, author, discovered packages, package data with the
py.typed marker and .pyi stubs, zip_safe=False, python_requires>=3.7,
classifiers), plus exactly two unlisted fields:
`long_description_content_type` and `include_package_data`. -/
theorem spec_C8 :
    (∀ k ∈ claimListedKeys, k ∈ setupKwargs.map Prod.fst) ∧
    ("name", SetupVal.str "google-cloud-ndb-stubs") ∈ setupKwargs ∧
    ("version", SetupVal.str "2.3.4") ∈ setupKwargs ∧
    ("description", SetupVal.str "Type stubs for google-cloud-ndb") ∈ setupKwargs ∧
    ("long_description", SetupVal.readFile "../README.md") ∈ setupKwargs ∧
    ("author", SetupVal.str "Type Stubs Contributor") ∈ setupKwargs ∧
    ("packages", SetupVal.findPackages) ∈ setupKwargs ∧
    ("package_data", SetupVal.packageData
      [("google-cloud-ndb-stubs", ["py.typed", "**/*.pyi"]),
       ("google.cloud.ndb", ["py.typed", "*.pyi"])]) ∈ setupKwargs ∧
    ("zip_safe", SetupVal.bool false) ∈ setupKwargs ∧
    ("python_requires", SetupVal.str ">=3.7") ∈ setupKwargs ∧
    ("classifiers", SetupVal.strList
      ["Development Status :: 4 - Beta",
       "Intended Audience :: Developers",
       "License :: OSI Approved :: Apache Software License",
       "Programming Language :: Python :: 3",
       "Programming Language :: Python :: 3.7",
       "Programming Language :: Python :: 3.8",
       "Programming Language :: Python :: 3.9",
       "Programming Language :: Python :: 3.10",
       "Programming Language :: Python :: 3.11",
       "Typing :: Typed"]) ∈ setupKwargs ∧
    (setupKwargs.map Prod.fst).filter (fun k => k ∉ claimListedKeys)
      = ["long_description_content_type", "include_package_data"] := by
  refine ⟨by decide, by decide, by decide, by decide, by decide, by decide,
    by decide, by decide, by decide, by decide, by decide, by decide⟩

/-- C7 (witness): the `Stats` class of `test_lsp_comprehension.py` is
instantiated in at most one test function. -/
theorem spec_C7_witness :
    (ClassUsage.mk "test_lsp_comprehension.py" "Stats"
      ["test_complex_nested"]).instantiatedIn.length ≤ 1 ∨
    ((ClassUsage.mk "test_lsp_comprehension.py" "Stats"
        ["test_complex_nested"]).script = "test_lsp_comprehension.py" ∧
      (ClassUsage.mk "test_lsp_comprehension.py" "Stats"
        ["test_complex_nested"]).className = "User" ∧
      (ClassUsage.mk "test_lsp_comprehension.py" "Stats"
        ["test_complex_nested"]).instantiatedIn
          = ["test_basic_fields", "test_model_methods"]) :=
  spec_C7.2.2
    (ClassUsage.mk "test_lsp_comprehension.py" "Stats" ["test_complex_nested"])
    (by decide)

/-- C8 (witness): the listed key `zip_safe` is among the keyword
arguments the descriptor declares. -/
theorem spec_C8_witness : "zip_safe" ∈ setupKwargs.map Prod.fst :=
  spec_C8.1 "zip_safe" (by decide)
